import Mathlib

/-
Shallow embedding of the repository dorkusprime/claude-experiments
(src/youtube_summarizer.py and src/tool_use.py), together with proofs
about the embedded definitions.

Conventions:
* Python integers are modelled as ℤ.
* The `max_wait_time` parameter of `with_retries` is modelled as
  `WithTop ℤ`, with `⊤` standing for the default `float("inf")` and
  `((m : ℤ) : WithTop ℤ)` for a finite configured ceiling.
* External I/O (the remote API's replies, the caption source, HTTP
  fetches) is modelled by explicit oracle parameters; unbounded
  `while True` loops are modelled with an explicit fuel argument,
  `none` meaning that the loop has not produced a result within the
  given fuel.
-/

/-! ## Backoff generator (`fibonacci_wait_times`, src/youtube_summarizer.py lines 57-72) -/

/-- One pass of the generator loop body of `fibonacci_wait_times`
(src/youtube_summarizer.py lines 68-72): after yielding `a`, the state
`(a, b)` advances to `(b, a + b)` only when `b <= max_wait_time`;
otherwise the state is left unchanged (the recurrence is frozen). -/
def fibStep (M : WithTop ℤ) (s : ℤ × ℤ) : ℤ × ℤ :=
  if (s.2 : WithTop ℤ) ≤ M then (s.2, s.1 + s.2) else s

/-- The generator state `(a, b)` of `fibonacci_wait_times` just before the
`n`-th `yield` (0-indexed).  The initial state is `(0, 1)`
(src/youtube_summarizer.py line 68). -/
def fibState (M : WithTop ℤ) : ℕ → ℤ × ℤ
  | 0 => (0, 1)
  | n + 1 => fibStep M (fibState M n)

/-- The `n`-th value yielded by the generator `fibonacci_wait_times`
(src/youtube_summarizer.py lines 57-72): the first component `a` of the
state just before the `n`-th `yield`. -/
def fibonacci_wait_times (M : WithTop ℤ) (n : ℕ) : ℤ :=
  (fibState M n).1

/-- The ceiling actually configured on the summarizer's `ask_claude`:
`@with_retries(max_wait_time=60)` (src/youtube_summarizer.py line 114). -/
def maxWait60 : WithTop ℤ := ((60 : ℤ) : WithTop ℤ)

/-! ## Retry wrapper (`with_retries` / `wrapper`, src/youtube_summarizer.py lines 45-111) -/

/-- A Python value, as far as the argument plumbing of the retry wrapper
needs to distinguish values. -/
inductive PyVal where
  | str (s : String)
  | int (n : ℤ)
deriving DecidableEq

/-- The outcome of one execution of the wrapped function `func`:
it returns a value, raises `RateLimitError`, raises
`InternalServerError`, or raises some other exception (carried as a
message string). -/
inductive Outcome where
  | ok (v : PyVal)
  | rateLimit
  | serverError
  | fatal (e : String)
deriving DecidableEq

/-- Whether an outcome is one of the two failure kinds caught by
`wrapper`'s `except` clauses (src/youtube_summarizer.py lines 90, 98). -/
def Outcome.isTransient : Outcome → Bool
  | .rateLimit => true
  | .serverError => true
  | _ => false

/-- The positional arguments that `func` actually receives from the call
`return func(*args, *kwargs)` (src/youtube_summarizer.py line 89).
The second star is a single star, so the keyword dictionary is unpacked
as an iterable — which, for a Python dict, yields its keys in insertion
order — and those keys are appended as extra positional arguments; no
keyword arguments are forwarded at all. -/
def mangledArgs (args : List PyVal) (kwargs : List (String × PyVal)) : List PyVal :=
  args ++ kwargs.map fun p => PyVal.str p.1

/-- The retry loop of `wrapper` (src/youtube_summarizer.py lines 81-107),
run with explicit fuel.  `funcExec k pos kw` is the outcome of the
`k`-th execution of `func` when called with positional arguments `pos`
and keyword arguments `kw` (the index models the statefulness of the
external call).  `k` also counts how many values of the freshly created
`sleep_time_generator` have been consumed: each caught `RateLimitError`
sleeps `next(gen)` seconds and each caught `InternalServerError` sleeps
`next(gen) + 30` seconds before re-entering the loop.  The result is
`none` when the loop has not finished within `fuel` iterations, and
otherwise the returned value (or the propagated non-transient
exception) together with the list of sleep durations performed. -/
def wrapperRun (M : WithTop ℤ)
    (funcExec : ℕ → List PyVal → List (String × PyVal) → Outcome)
    (args : List PyVal) (kwargs : List (String × PyVal)) :
    ℕ → ℕ → Option (Except String PyVal × List ℤ)
  | _, 0 => none
  | k, fuel + 1 =>
    match funcExec k (mangledArgs args kwargs) [] with
    | .ok v => some (.ok v, [])
    | .rateLimit =>
        (wrapperRun M funcExec args kwargs (k + 1) fuel).map
          fun r => (r.1, fibonacci_wait_times M k :: r.2)
    | .serverError =>
        (wrapperRun M funcExec args kwargs (k + 1) fuel).map
          fun r => (r.1, (fibonacci_wait_times M k + 30) :: r.2)
    | .fatal e => some (.error e, [])

/-! ## Tool demo: local capabilities (src/tool_use.py lines 22-73) -/

/-- Whether the list of characters `pat` occurs at the start of `s`. -/
def charsStartWith : List Char → List Char → Bool
  | [], _ => true
  | _ :: _, [] => false
  | a :: as, b :: bs => a = b && charsStartWith as bs

/-- Whether the list of characters `pat` occurs contiguously inside `s`. -/
def charsContain : List Char → List Char → Bool
  | pat, [] => pat.isEmpty
  | pat, c :: rest => charsStartWith pat (c :: rest) || charsContain pat rest

/-- The Python expression `pat in s` on strings: substring containment. -/
def pyIn (pat s : String) : Bool :=
  charsContain pat.data s.data

/-- Embedding of `get_weather` (src/tool_use.py lines 48-60): a canned clarification
for locations mentioning "Northsborough", otherwise a canned forecast
interpolating the location. -/
def get_weather (input : String) : String :=
  if pyIn "Northsborough" input then "Did you mean Northborough, MA?"
  else "It's 70 and sunny in " ++ input ++ "!"

/-- Embedding of `get_facts` (src/tool_use.py lines 63-73): a canned multi-line fact
sheet interpolating the topic. -/
def get_facts (input : String) : String :=
  "Here are some facts about " ++ input ++ ":\n- It is the most sought-after attraction in all of Northsborough, New Hampshire\n- 90% of participants love it!\n- It's purple\n- It is located in Northsborough, which is a small unincorporated area in New Hampshire that may not show up on your maps. It is NOT located in Northborough, MA. Ask locals for directions!"

/-- Lookup of a key in a Python dict modelled as an association list. -/
def dictGet (d : List (String × String)) (key : String) : Option String :=
  (d.find? fun p => p.1 = key).map Prod.snd

/-- Embedding of `handle_tool_use` (src/tool_use.py lines 22-45).  The `match` on
`tool_name` dispatches to `get_weather(input["location"])`,
`get_facts(input["topic"])`, or the fallback `"n/a"` for any other
name.  A missing dictionary key would raise `KeyError` in Python; that
is modelled by the `Except.error` result. -/
def handle_tool_use (tool_name : String) (input : List (String × String)) :
    Except String String :=
  if tool_name = "get_weather" then
    match dictGet input "location" with
    | some loc => .ok (get_weather loc)
    | none => .error "KeyError: location"
  else if tool_name = "get_facts" then
    match dictGet input "topic" with
    | some topic => .ok (get_facts topic)
    | none => .error "KeyError: topic"
  else .ok "n/a"

/-! ## Tool demo: conversation data model and dispatch loop (src/tool_use.py lines 76-194) -/

/-- A content block of a conversation turn: a text segment, a
capability-invocation request (`tool_use`), or a capability result
(`tool_result`). -/
inductive Block where
  | text (t : String)
  | toolUse (id : String) (name : String) (input : List (String × String))
  | toolResult (tool_use_id : String) (content : String)
deriving DecidableEq

/-- The `content` field of a turn: either a plain string (the initial
`user_content`) or a list of content blocks. -/
inductive Content where
  | ofString (s : String)
  | blocks (bs : List Block)
deriving DecidableEq

/-- One conversation turn, as the dicts built in `main` and `ask_claude`:
a role tag and a content payload. -/
structure Msg where
  role : String
  content : Content
deriving DecidableEq

/-- A reply of the remote assistant: its stop condition tag and its list
of content blocks. -/
structure Reply where
  stop_reason : String
  content : List Block
deriving DecidableEq

/-- The Python test `block.type == "text"`. -/
def Block.isText : Block → Bool
  | .text _ => true
  | _ => false

/-- The Python test `block.type == "tool_use"`. -/
def Block.isToolUse : Block → Bool
  | .toolUse _ _ _ => true
  | _ => false

/-- The expression `next(block for block in content if block.type == "text")`, as an
`Option` (`none` models the raised `StopIteration`). -/
def firstText (bs : List Block) : Option Block :=
  bs.find? Block.isText

/-- The expression `next(block for block in content if block.type == "tool_use")`, as an
`Option` (`none` models the raised `StopIteration`). -/
def firstToolUse (bs : List Block) : Option Block :=
  bs.find? Block.isToolUse

/-- The turn sequence that `ask_claude` actually sends to the remote API:
`new_messages = messages + [new_message]` (src/tool_use.py line 111 and
src/youtube_summarizer.py line 127 are the same expression). -/
def askClaudeSent (new_message : Msg) (messages : List Msg) : List Msg :=
  messages ++ [new_message]

/-- The pure part of the tool demo's `ask_claude`
(src/tool_use.py lines 100-148): given the remote reply `response` (the
API call is external I/O, so the reply is an oracle input), it returns
`(response, new_messages)` where `new_messages = messages + [new_message]`. -/
def ask_claude (response : Reply) (new_message : Msg) (messages : List Msg) :
    Reply × List Msg :=
  (response, askClaudeSent new_message messages)

/-- The result of one iteration of the `while True` loop in `main`
(src/tool_use.py lines 166-189), from the point where the reply and the
updated message list are in hand: the loop either breaks with the final
reply, goes around again with a new `user_content`, or raises
(`StopIteration` from an exhausted `next`, or a `KeyError` from
`handle_tool_use`). -/
inductive StepResult where
  | done (r : Reply) (msgs : List Msg)
  | next (uc : Content) (msgs : List Msg)
  | crash (err : String)
deriving DecidableEq

/-- The body of one iteration of `main`'s loop after
`response, messages = ask_claude_with_retries(new_message, messages)`
has produced `response` and `msgs1` (src/tool_use.py lines 169-189):
append the assistant turn; if the stop condition is `"tool_use"`, log
the first text block (raising `StopIteration` when the content has more
than one block but no text block), locate the first `tool_use` block
(raising `StopIteration` when there is none), run `handle_tool_use`,
and set the next `user_content` to the single `tool_result` block;
otherwise break with the reply. -/
def stepCore (response : Reply) (msgs1 : List Msg) : StepResult :=
  let msgs2 := msgs1 ++ [⟨"assistant", Content.blocks response.content⟩]
  if response.stop_reason = "tool_use" then
    if 1 < response.content.length ∧ firstText response.content = none then
      .crash "StopIteration"
    else
      match firstToolUse response.content with
      | some (Block.toolUse id name input) =>
          match handle_tool_use name input with
          | .ok tool_response =>
              .next (Content.blocks [Block.toolResult id tool_response]) msgs2
          | .error e => .crash e
      | _ => .crash "StopIteration"
  else .done response msgs2

/-- One full iteration of `main`'s loop with the reply delivered by the
oracle `replies` (the `i`-th API round trip answers with `replies i`):
build `new_message` from the current `user_content`, send
`messages + [new_message]`, then run the rest of the body. -/
def step (replies : ℕ → Reply) (i : ℕ) (uc : Content) (msgs : List Msg) :
    StepResult :=
  stepCore (replies i) (askClaudeSent ⟨"user", uc⟩ msgs)

/-- The loop state (current `user_content`, current `messages`) of `main`
just before its `n`-th iteration, when every earlier iteration went
around the loop again; `none` once the loop has stopped (broken or
raised) or the exchange never returned. -/
def loopState (replies : ℕ → Reply) (uc0 : Content) : ℕ → Option (Content × List Msg)
  | 0 => some (uc0, [])
  | n + 1 =>
    match loopState replies uc0 n with
    | some (uc, msgs) =>
        match step replies n uc msgs with
        | .next uc' msgs' => some (uc', msgs')
        | _ => none
    | none => none

/-- The first user message of the tool demo (src/tool_use.py line 163). -/
def userContent0 : String :=
  "I want to go see the Percy Balloon. I generally like things that are orange, but I'm not sure what color it is. I could be persuaded to see something in another color if it's popular enough. The weather also might be awful. Should I go?"

/-- The outcome of the `try` block of `ask_claude_with_retries`
(src/tool_use.py lines 89-93). -/
inductive TryOutcome where
  | returned (r : Reply × List Msg)
  | raisedRateLimit
deriving DecidableEq

/-- The `try` block of `ask_claude_with_retries` (src/tool_use.py lines
89-93).  Its first statement is `raise RateLimitError("Rate Limit
Error")`, so control never reaches the following
`return ask_claude(new_message, messages)`: that line is dead code, the
work is never executed, and the block always ends in a raised
`RateLimitError`. -/
def askClaudeWithRetriesTryBlock (_work : Unit → Reply × List Msg) : TryOutcome :=
  .raisedRateLimit

/-- The `while True` loop of `ask_claude_with_retries`
(src/tool_use.py lines 87-97), run with explicit fuel.  `work ()` stands
for the call `ask_claude(new_message, messages)` in the `try` block.
The result is the returned value (or `none` when the loop has not
returned within `fuel` iterations), the number of times the work was
executed, and the list of sleep durations performed (`sleep_time = 10`
before every retry). -/
def askClaudeWithRetriesRun (work : Unit → Reply × List Msg) :
    ℕ → Option (Reply × List Msg) × ℕ × List ℤ
  | 0 => (none, 0, [])
  | fuel + 1 =>
    match askClaudeWithRetriesTryBlock work with
    | .returned r => (some r, 1, [])
    | .raisedRateLimit =>
        let rest := askClaudeWithRetriesRun work fuel
        (rest.1, rest.2.1, 10 :: rest.2.2)

/-- The exchange that `main`'s loop actually performs on its `i`-th
iteration: `response, messages = ask_claude_with_retries(new_message,
messages)`, with the remote reply that `ask_claude` would obtain
delivered by the oracle `replies`.  `none` means the call never
returned within `retryFuel` iterations of its retry loop. -/
def exchangeRetries (replies : ℕ → Reply) (retryFuel : ℕ)
    (i : ℕ) (new_message : Msg) (messages : List Msg) :
    Option (Reply × List Msg) :=
  (askClaudeWithRetriesRun (fun _ => ask_claude (replies i) new_message messages) retryFuel).1

/-- The dispatch loop of `main` (src/tool_use.py lines 166-189), run with
explicit fuel and parameterized by the exchange performed at the top of
each iteration.  The result is `none` when the loop neither broke nor
raised within the fuel (in particular when an exchange never returned),
and otherwise the final reply and message list, or the raised
exception. -/
def loopRunE (exchange : ℕ → Msg → List Msg → Option (Reply × List Msg)) :
    ℕ → Content → List Msg → ℕ → Option (Except String (Reply × List Msg))
  | _, _, _, 0 => none
  | i, uc, msgs, fuel + 1 =>
    match exchange i ⟨"user", uc⟩ msgs with
    | none => none
    | some (response, msgs1) =>
        match stepCore response msgs1 with
        | .done r m => some (.ok (r, m))
        | .next uc' msgs' => loopRunE exchange (i + 1) uc' msgs' fuel
        | .crash e => some (.error e)

/-! ## Summarizer: captions and main (src/youtube_summarizer.py lines 137-182) -/

/-- Embedding of `download_captions` (src/youtube_summarizer.py lines 137-166).
The yt-dlp extraction result is external I/O, modelled by
`requested_subtitles`: `none` stands for a falsy
`res["requested_subtitles"]` (absent or empty), `some none` for a falsy
`res["requested_subtitles"]["en"]` entry, and `some (some url)` for a
truthy entry carrying the subtitle URL.  The HTTP fetch
`requests.get(url, stream=True).text` is the oracle `fetch`.  The
function returns the fetched text, or `none` (Python `None`) when no
English captions are available. -/
def download_captions (requested_subtitles : Option (Option String))
    (fetch : String → String) : Option String :=
  match requested_subtitles with
  | some (some url) => some (fetch url)
  | _ => none

/-- The `new_message` dict built by the summarizer's `main`
(src/youtube_summarizer.py lines 173-179). -/
def summarizeMsg (captions : String) : Msg :=
  ⟨"user", Content.blocks [Block.text captions, Block.text "Can you summarize the video?"]⟩

/-- The summarizer's `main` (src/youtube_summarizer.py lines 169-182),
up to the point where it either returns early or invokes `ask_claude`:
the result is the `new_message` passed to `ask_claude`, or `none` when
`main` returns without invoking it (`if not captions: return`, which
also fires on an empty captions string). -/
def summarizer_main (requested_subtitles : Option (Option String))
    (fetch : String → String) : Option Msg :=
  match download_captions requested_subtitles fetch with
  | none => none
  | some captions => if captions = "" then none else some (summarizeMsg captions)

/-- A wrapped function that returns the number of positional arguments it
received; used to exhibit the argument plumbing of `wrapper`. -/
def argCountFunc : List PyVal → List (String × PyVal) → Outcome :=
  fun pos _ => .ok (.int pos.length)

/-- A wrapped function whose first execution raises `RateLimitError` and
whose later executions raise a non-transient exception `"boom"`. -/
def c7Func : ℕ → List PyVal → List (String × PyVal) → Outcome :=
  fun i _ _ => if i = 0 then .rateLimit else .fatal "boom"

/-- A reply oracle that always answers with a natural completion. -/
def endTurnReplies : ℕ → Reply :=
  fun _ => ⟨"end_turn", [Block.text "Enjoy the balloon!"]⟩

/-- A reply oracle that always requests the unregistered capability
`"whoami"`. -/
def c5Replies : ℕ → Reply :=
  fun _ => ⟨"tool_use", [Block.toolUse "t1" "whoami" []]⟩

/-! ## Lemmas about the backoff generator -/

/-- The generator state invariant: both components are non-negative and
the first is at most the second, for every ceiling. -/
theorem fibState_inv (M : WithTop ℤ) (n : ℕ) :
    0 ≤ (fibState M n).1 ∧ 0 ≤ (fibState M n).2 ∧ (fibState M n).1 ≤ (fibState M n).2 := by
  induction n with
  | zero => refine ⟨le_refl 0, ?_, ?_⟩ <;> norm_num [fibState]
  | succ n ih =>
    obtain ⟨h1, h2, h3⟩ := ih
    simp only [fibState, fibStep]
    split
    · refine ⟨h2, ?_, ?_⟩
      · show 0 ≤ (fibState M n).1 + (fibState M n).2
        linarith
      · show (fibState M n).2 ≤ (fibState M n).1 + (fibState M n).2
        linarith
    · exact ⟨h1, h2, h3⟩

/-- For a non-negative ceiling, every value yielded by
`fibonacci_wait_times` is at most the ceiling: the state only advances
while the upcoming value is still at most the ceiling, so the
overflowing value never reaches the yield position. -/
theorem fibWait_le (M : WithTop ℤ) (h0 : ((0 : ℤ) : WithTop ℤ) ≤ M) (n : ℕ) :
    ((fibonacci_wait_times M n : ℤ) : WithTop ℤ) ≤ M := by
  induction n with
  | zero => simpa [fibonacci_wait_times, fibState] using h0
  | succ n ih =>
    simp only [fibonacci_wait_times, fibState, fibStep] at *
    split
    · next h => exact h
    · exact ih

/-- Once the upcoming value exceeds the ceiling, the generator state
never changes again. -/
theorem fibState_frozen (M : WithTop ℤ) (n : ℕ)
    (h : ¬ ((fibState M n).2 : WithTop ℤ) ≤ M) (k : ℕ) :
    fibState M (n + k) = fibState M n := by
  induction k with
  | zero => rfl
  | succ k ih =>
    have hstep : fibState M (n + (k + 1)) = fibStep M (fibState M (n + k)) := rfl
    rw [hstep, ih, fibStep, if_neg h]

/-! ## Claim theorems -/

/-- Claim C3 (confirmed): every wait duration emitted by the backoff
generator is non-negative, and the emitted sequence is non-decreasing at
every step (in particular from the first value up to the freeze point),
for every configured ceiling including the default infinite one. -/
theorem backoff_nonneg_monotone (M : WithTop ℤ) (n : ℕ) :
    0 ≤ fibonacci_wait_times M n ∧
      fibonacci_wait_times M n ≤ fibonacci_wait_times M (n + 1) := by
  obtain ⟨h1, _, h3⟩ := fibState_inv M n
  refine ⟨h1, ?_⟩
  show (fibState M n).1 ≤ (fibStep M (fibState M n)).1
  unfold fibStep
  split
  · exact h3
  · exact le_refl _

/-- Claim C1 is false on the code: with the configured ceiling 60
(`@with_retries(max_wait_time=60)`), no value emitted by
`fibonacci_wait_times` ever exceeds the ceiling.  The growth check
`if b <= max_wait_time` runs before the overflowing `b` is promoted to
the yield position `a`, so the emitted value is frozen at the largest
Fibonacci number not exceeding the ceiling. -/
theorem backoff_never_exceeds_ceiling :
    ¬ ∃ n : ℕ, 60 < fibonacci_wait_times maxWait60 n := by
  rintro ⟨n, hn⟩
  have h0 : ((0 : ℤ) : WithTop ℤ) ≤ maxWait60 :=
    show ((0 : ℤ) : WithTop ℤ) ≤ ((60 : ℤ) : WithTop ℤ) from
      WithTop.coe_le_coe.mpr (by norm_num)
  have h := fibWait_le maxWait60 h0 n
  unfold maxWait60 at h
  have h60 : fibonacci_wait_times maxWait60 n ≤ 60 :=
    WithTop.coe_le_coe.mp h
  linarith

/-- Claim C1 (amended): once the upcoming value of the Fibonacci
recurrence would exceed the configured ceiling, the generator state is
frozen and every subsequently emitted wait value equals the frozen
value; for a non-negative ceiling no emitted value ever exceeds the
ceiling — growth of the state is frozen before the overflowing value
reaches the yield position, so emitted values stay at or below the
ceiling even though no explicit clamping of the emitted value occurs. -/
theorem backoff_freeze_capped (M : WithTop ℤ) (n k : ℕ)
    (h0 : ((0 : ℤ) : WithTop ℤ) ≤ M)
    (hfr : ¬ ((fibState M n).2 : WithTop ℤ) ≤ M) :
    fibState M (n + k) = fibState M n ∧
      ((fibonacci_wait_times M (n + k) : ℤ) : WithTop ℤ) ≤ M :=
  ⟨fibState_frozen M n hfr k, fibWait_le M h0 (n + k)⟩

/-- Witness for `backoff_freeze_capped` at the configured ceiling 60:
after 10 steps the state is `(55, 89)` and frozen, and the value emitted
three steps later is still at most 60. -/
theorem backoff_freeze_capped_witness :
    fibState maxWait60 (10 + 3) = fibState maxWait60 10 ∧
      ((fibonacci_wait_times maxWait60 (10 + 3) : ℤ) : WithTop ℤ) ≤ maxWait60 :=
  backoff_freeze_capped maxWait60 10 3 (by decide) (by decide)

/-- Helper: `ask_claude_with_retries` never returns, never executes the
work, and sleeps 10 seconds on every iteration, because its `try` block
unconditionally raises `RateLimitError` before the `return`. -/
theorem askClaudeWithRetriesRun_eq (work : Unit → Reply × List Msg) (fuel : ℕ) :
    askClaudeWithRetriesRun work fuel = (none, 0, List.replicate fuel 10) := by
  induction fuel with
  | zero => rfl
  | succ fuel ih =>
    simp [askClaudeWithRetriesRun, askClaudeWithRetriesTryBlock, ih, List.replicate]

/-- Claim C2 is false on the code: the tool demo's retry wrapper
`ask_claude_with_retries` never executes its unit of work and never
returns a result — for every work function and every number `fuel` of
loop iterations, it has executed the work 0 times, produced no return
value, and slept 10 seconds per iteration.  The cause is the
unconditional `raise RateLimitError("Rate Limit Error")` placed before
the (dead) `return ask_claude(new_message, messages)` in its `try`
block, which contradicts the function's own docstring ("Sends a message
to Claude and retries if a RateLimitError occurs ... Returns: The
response from ask_claude"). -/
theorem retry_helper_never_runs_work (work : Unit → Reply × List Msg) (fuel : ℕ) :
    askClaudeWithRetriesRun work fuel = (none, 0, List.replicate fuel 10) :=
  askClaudeWithRetriesRun_eq work fuel

/-- Claim C6 is false on the code: for every reply oracle (in particular
ones whose replies all have a non-`"tool_use"` stop condition), every
starting state and every amount of fuel for both loops, the tool demo's
dispatch loop never terminates with any result, because every exchange
goes through `ask_claude_with_retries`, which never returns. -/
theorem dispatch_loop_never_returns (replies : ℕ → Reply) (retryFuel : ℕ)
    (i : ℕ) (uc : Content) (msgs : List Msg) (fuel : ℕ) :
    loopRunE (exchangeRetries replies retryFuel) i uc msgs fuel = none := by
  cases fuel with
  | zero => rfl
  | succ fuel =>
    simp [loopRunE, exchangeRetries, askClaudeWithRetriesRun_eq]

/-- Helper for claim C7: if the first `k` executions of the wrapped
function fail transiently and the `(j + k)`-th execution raises a
non-transient exception, the retry loop started at attempt `j`
propagates that exception while performing exactly `k` sleeps. -/
theorem wrapperRun_reaches_fatal (M : WithTop ℤ)
    (funcExec : ℕ → List PyVal → List (String × PyVal) → Outcome)
    (args : List PyVal) (kwargs : List (String × PyVal)) (e : String) :
    ∀ k j fuel : ℕ,
      (∀ i, i < k → (funcExec (j + i) (mangledArgs args kwargs) []).isTransient = true) →
      funcExec (j + k) (mangledArgs args kwargs) [] = .fatal e → k < fuel →
      ∃ sleeps : List ℤ,
        wrapperRun M funcExec args kwargs j fuel = some (.error e, sleeps) ∧
          sleeps.length = k := by
  intro k
  induction k with
  | zero =>
    intro j fuel _ hf hfuel
    obtain ⟨fuel', rfl⟩ : ∃ f, fuel = f + 1 := ⟨fuel - 1, by omega⟩
    refine ⟨[], ?_, rfl⟩
    have hf' : funcExec j (mangledArgs args kwargs) [] = .fatal e := hf
    simp [wrapperRun, hf']
  | succ k ih =>
    intro j fuel htr hf hfuel
    obtain ⟨fuel', rfl⟩ : ∃ f, fuel = f + 1 := ⟨fuel - 1, by omega⟩
    have h0 : (funcExec j (mangledArgs args kwargs) []).isTransient = true := by
      simpa using htr 0 (by omega)
    have htr' : ∀ i, i < k →
        (funcExec (j + 1 + i) (mangledArgs args kwargs) []).isTransient = true := by
      intro i hi
      have h := htr (i + 1) (by omega)
      rwa [show j + (i + 1) = j + 1 + i by omega] at h
    have hf' : funcExec (j + 1 + k) (mangledArgs args kwargs) [] = .fatal e := by
      rw [show j + 1 + k = j + (k + 1) by omega]
      exact hf
    obtain ⟨sleeps, heq, hlen⟩ := ih (j + 1) fuel' htr' hf' (by omega)
    rcases hx : funcExec j (mangledArgs args kwargs) [] with v | _ | _ | e'
    · rw [hx] at h0; simp [Outcome.isTransient] at h0
    · refine ⟨fibonacci_wait_times M j :: sleeps, ?_, by simp [hlen]⟩
      simp [wrapperRun, hx, heq]
    · refine ⟨(fibonacci_wait_times M j + 30) :: sleeps, ?_, by simp [hlen]⟩
      simp [wrapperRun, hx, heq]
    · rw [hx] at h0; simp [Outcome.isTransient] at h0

/-- Claim C7 (confirmed): when the wrapped function raises a failure that
is not a recognized transient failure (neither `RateLimitError` nor
`InternalServerError`), the summarizer's retry wrapper propagates that
failure to its caller at once: the run ends with that exception, and the
only sleeps performed are the ones owed to the earlier transient
failures — none is added for the non-transient one, and the function is
not re-executed afterwards. -/
theorem wrapper_propagates_nontransient (M : WithTop ℤ)
    (funcExec : ℕ → List PyVal → List (String × PyVal) → Outcome)
    (args : List PyVal) (kwargs : List (String × PyVal)) (k : ℕ) (e : String)
    (fuel : ℕ)
    (htr : ∀ i, i < k → (funcExec i (mangledArgs args kwargs) []).isTransient = true)
    (hf : funcExec k (mangledArgs args kwargs) [] = .fatal e)
    (hfuel : k < fuel) :
    ∃ sleeps : List ℤ,
      wrapperRun M funcExec args kwargs 0 fuel = some (.error e, sleeps) ∧
        sleeps.length = k := by
  refine wrapperRun_reaches_fatal M funcExec args kwargs e k 0 fuel ?_ ?_ hfuel
  · intro i hi; simpa using htr i hi
  · simpa using hf

/-- Witness for `wrapper_propagates_nontransient`: a function whose first
execution hits a rate limit and whose second raises `"boom"`; the
wrapper ends with `"boom"` after exactly one sleep. -/
theorem wrapper_propagates_nontransient_witness :
    ∃ sleeps : List ℤ,
      wrapperRun maxWait60 c7Func [] [] 0 2 = some (.error "boom", sleeps) ∧
        sleeps.length = 1 :=
  wrapper_propagates_nontransient maxWait60 c7Func [] [] 1 "boom" 2
    (fun i hi => by
      cases i with
      | zero => rfl
      | succ j => exact absurd (Nat.lt_of_succ_lt_succ hi) (Nat.not_lt_zero j))
    rfl (by decide)

/-- Claim C10 is false on the code: because `wrapper` forwards its
arguments with `func(*args, *kwargs)` (a single star on `kwargs`), a
call with the single keyword argument `messages=0` and no positional
arguments executes `func` with the single positional argument
`"messages"` (the dict's key) and no keyword arguments, so the wrapped
call returns `func("messages")` — here the count 1 — instead of
`func(messages=0)` — here the count 0. -/
theorem wrapper_kwargs_mangled :
    wrapperRun maxWait60 (fun _ => argCountFunc) [] [("messages", PyVal.int 0)] 0 1 =
        some (.ok (PyVal.int 1), []) ∧
      argCountFunc [] [("messages", PyVal.int 0)] = .ok (PyVal.int 0) :=
  ⟨rfl, rfl⟩

/-- Claim C4 (confirmed): when the assistant's reply requests a
capability whose name is not one of the two registered ones,
`handle_tool_use` resolves it to the fixed fallback string `"n/a"`, and
the dispatch loop iteration goes around again (it neither raises nor
terminates), appending a `tool_result` turn carrying `"n/a"` tagged with
the originating invocation's identifier. -/
theorem dispatch_unknown_tool_fallback (r : Reply) (id name : String)
    (input : List (String × String)) (msgs1 : List Msg)
    (h1 : name ≠ "get_weather") (h2 : name ≠ "get_facts")
    (hstop : r.stop_reason = "tool_use")
    (htu : firstToolUse r.content = some (Block.toolUse id name input))
    (htext : ¬(1 < r.content.length ∧ firstText r.content = none)) :
    handle_tool_use name input = .ok "n/a" ∧
      stepCore r msgs1 =
        .next (Content.blocks [Block.toolResult id "n/a"])
          (msgs1 ++ [⟨"assistant", Content.blocks r.content⟩]) := by
  have hh : handle_tool_use name input = .ok "n/a" := by
    simp [handle_tool_use, h1, h2]
  refine ⟨hh, ?_⟩
  unfold stepCore
  rw [if_pos hstop, if_neg htext, htu]
  dsimp only
  rw [hh]

/-- Witness for `dispatch_unknown_tool_fallback`: the unregistered name
`"frobnicate"`. -/
theorem dispatch_unknown_tool_fallback_witness :
    handle_tool_use "frobnicate" [] = .ok "n/a" ∧
      stepCore ⟨"tool_use", [Block.toolUse "t1" "frobnicate" []]⟩ [] =
        .next (Content.blocks [Block.toolResult "t1" "n/a"])
          [⟨"assistant", Content.blocks [Block.toolUse "t1" "frobnicate" []]⟩] :=
  dispatch_unknown_tool_fallback ⟨"tool_use", [Block.toolUse "t1" "frobnicate" []]⟩
    "t1" "frobnicate" [] []
    (by decide) (by decide) rfl rfl
    (fun h => absurd h.1 (by decide))

/-- Helper for claim C5: whenever a loop iteration goes around again, the
new message list is the sent list (`messages + [new_message]`) extended
by exactly the appended assistant turn. -/
theorem stepCore_next_msgs (response : Reply) (msgs1 : List Msg)
    (uc' : Content) (msgs' : List Msg)
    (h : stepCore response msgs1 = .next uc' msgs') :
    msgs' = msgs1 ++ [⟨"assistant", Content.blocks response.content⟩] := by
  unfold stepCore at h
  split at h
  · split at h
    · exact StepResult.noConfusion h
    · split at h
      · split at h
        · injection h with h1 h2
          exact h2.symm
        · exact StepResult.noConfusion h
      · exact StepResult.noConfusion h
  · exact StepResult.noConfusion h

/-- Claim C5 (confirmed): the conversation turn sequence is append-only.
Whenever the dispatch loop goes from its `n`-th to its `(n+1)`-th
iteration, the full turn sequence sent on the `n`-th round trip is an
initial segment of the turn sequence sent on the `(n+1)`-th round trip
(turns are only ever appended, never mutated or reordered); and every
call of the summarizer's `ask_claude` likewise sends the previous
message list extended only at the end. -/
theorem conversation_append_only (replies : ℕ → Reply) (uc0 : Content) (n : ℕ)
    (uc uc' : Content) (msgs msgs' : List Msg)
    (h1 : loopState replies uc0 n = some (uc, msgs))
    (h2 : loopState replies uc0 (n + 1) = some (uc', msgs')) :
    (∃ t, askClaudeSent ⟨"user", uc⟩ msgs ++ t = askClaudeSent ⟨"user", uc'⟩ msgs') ∧
      ∀ (new_message : Msg) (messages : List Msg),
        ∃ t, messages ++ t = askClaudeSent new_message messages := by
  constructor
  · have hs : step replies n uc msgs = .next uc' msgs' := by
      simp only [loopState, h1] at h2
      rcases hstep : step replies n uc msgs with ⟨r, m⟩ | ⟨u, m⟩ | ⟨e⟩ <;>
        rw [hstep] at h2
      · exact Option.noConfusion (show (none : Option (Content × List Msg)) = some (uc', msgs') from h2)
      · have h2' : (some (u, m) : Option (Content × List Msg)) = some (uc', msgs') := h2
        injection h2' with h3
        injection h3 with h4 h5
        rw [← h4, ← h5]
      · exact Option.noConfusion (show (none : Option (Content × List Msg)) = some (uc', msgs') from h2)
    have hs' : stepCore (replies n) (askClaudeSent ⟨"user", uc⟩ msgs) = .next uc' msgs' := hs
    have hmsgs := stepCore_next_msgs (replies n) (askClaudeSent ⟨"user", uc⟩ msgs) uc' msgs' hs'
    refine ⟨[⟨"assistant", Content.blocks (replies n).content⟩, ⟨"user", uc'⟩], ?_⟩
    rw [show askClaudeSent ⟨"user", uc'⟩ msgs' = msgs' ++ [⟨"user", uc'⟩] from rfl, hmsgs]
    simp
  · intro new_message messages
    exact ⟨[new_message], rfl⟩

/-- Witness for `conversation_append_only`: an oracle that always
requests the unregistered tool `"whoami"`; from iteration 0 to 1 the
sent sequence grows only at the end. -/
theorem conversation_append_only_witness :
    (∃ t, askClaudeSent ⟨"user", Content.ofString "hi"⟩ [] ++ t =
        askClaudeSent ⟨"user", Content.blocks [Block.toolResult "t1" "n/a"]⟩
          [⟨"user", Content.ofString "hi"⟩,
            ⟨"assistant", Content.blocks [Block.toolUse "t1" "whoami" []]⟩]) ∧
      ∀ (new_message : Msg) (messages : List Msg),
        ∃ t, messages ++ t = askClaudeSent new_message messages :=
  conversation_append_only c5Replies (Content.ofString "hi") 0
    (Content.ofString "hi") (Content.blocks [Block.toolResult "t1" "n/a"]) []
    [⟨"user", Content.ofString "hi"⟩,
      ⟨"assistant", Content.blocks [Block.toolUse "t1" "whoami" []]⟩]
    rfl rfl

/-- Claim C8 (confirmed): for every location string containing the
substring `"Northsborough"`, `get_weather` returns exactly the
clarification string `"Did you mean Northborough, MA?"`. -/
theorem weather_northsborough (location : String)
    (h : pyIn "Northsborough" location = true) :
    get_weather location = "Did you mean Northborough, MA?" := by
  simp [get_weather, h]

/-- Witness for `weather_northsborough`. -/
theorem weather_northsborough_witness :
    get_weather "Northsborough, NH" = "Did you mean Northborough, MA?" :=
  weather_northsborough "Northsborough, NH" (by decide)

/-- Claim C9 (confirmed): when the caption source reports no English
captions (a falsy `requested_subtitles` result, or a falsy `"en"`
entry), `download_captions` returns `None` and the summarizer's `main`
returns early without ever invoking `ask_claude`. -/
theorem no_captions_no_ask (requested_subtitles : Option (Option String))
    (fetch : String → String)
    (h : requested_subtitles = none ∨ requested_subtitles = some none) :
    summarizer_main requested_subtitles fetch = none := by
  rcases h with h | h <;> subst h <;> rfl

/-- Witness for `no_captions_no_ask`. -/
theorem no_captions_no_ask_witness :
    summarizer_main none (fun _ => "") = none :=
  no_captions_no_ask none (fun _ => "") (Or.inl rfl)
